import Mathlib

/-!
Verification of the task-tracker core in `src/main.py` (`Task`, `ToDoList`).

The Python code is shallowly embedded as executable Lean definitions:

* `datetime.strptime(s, "%Y-%m-%d")` is modelled by `parseDate`, following
  CPython's `_strptime` regex for this format: exactly four digits for `%Y`,
  one or two digits for `%m` (value 1-12) and `%d` (value 1-31), the whole
  string consumed, and then `datetime` range validation (year 1-9999,
  day within the Gregorian month length).  Digits are modelled as ASCII.
* `datetime.strftime("%Y-%m-%d")` is modelled by `formatDate`, which
  zero-pads the year to four digits and month/day to two digits, the
  documented output form of the format codes.
* `str.lower` / `str.capitalize` are modelled on the ASCII letter ranges.
* Exceptions are modelled by `Except` with one error constructor per Python
  exception class that the code can raise: `InvalidDateError`,
  `InvalidPriorityError`, `TaskNotFoundError`, and the bare `ValueError`
  that `datetime.strptime` raises inside `ToDoList.list_tasks` (which the
  code does not convert).  Note that in the source,
  `InvalidPriorityError` derives from `Exception`, not from `ValueError`,
  so the `except ValueError` clause in `Task.__init__` does not catch it.
* File contents are modelled as the list of per-task records that
  `json.dump` writes and `json.load` reads back; a missing file is `none`.
-/

namespace TodoApp

/-- A calendar date as held by a `datetime` parsed with `"%Y-%m-%d"`; the
time-of-day components of such a `datetime` are always zero, so only the
date triple is modelled. -/
structure Date where
  year : Nat
  month : Nat
  day : Nat
deriving DecidableEq, Repr

/-- Gregorian leap-year rule used by Python `datetime`. -/
def isLeap (y : Nat) : Bool :=
  y % 4 == 0 && (y % 100 != 0 || y % 400 == 0)

/-- Length of a month, as enforced by the `datetime` constructor. -/
def daysInMonth (y m : Nat) : Nat :=
  if m = 2 then (if isLeap y then 29 else 28)
  else if m = 4 ∨ m = 6 ∨ m = 9 ∨ m = 11 then 30
  else 31

/-- `datetime` range validation: `MINYEAR = 1 ≤ year ≤ MAXYEAR = 9999`,
month 1-12, day within the month. -/
def validDate (dt : Date) : Bool :=
  decide (1 ≤ dt.year) && decide (dt.year ≤ 9999) &&
  decide (1 ≤ dt.month) && decide (dt.month ≤ 12) &&
  decide (1 ≤ dt.day) && decide (dt.day ≤ daysInMonth dt.year dt.month)

/-- Numeric value of an ASCII digit character. -/
def charVal (c : Char) : Nat := c.toNat - 48

/-- Decimal value of a digit string, as `int` applied to the matched field. -/
def natVal (l : List Char) : Nat := l.foldl (fun a c => a * 10 + charVal c) 0

def isDigits (l : List Char) : Bool := l.all (fun c => c.isDigit)

/-- The `%Y` field of CPython `_strptime`: exactly four digits. -/
def yearOk (l : List Char) : Bool := l.length == 4 && isDigits l

/-- The `%m` field of CPython `_strptime` (`1[0-2]|0[1-9]|[1-9]`): one or
two digits with value 1-12. -/
def monthOk (l : List Char) : Bool :=
  isDigits l && decide (1 ≤ natVal l) &&
    ((l.length == 1 && decide (natVal l ≤ 9)) ||
     (l.length == 2 && decide (natVal l ≤ 12)))

/-- The `%d` field of CPython `_strptime` (`3[01]|[12]\d|0[1-9]|[1-9]`): one
or two digits with value 1-31. -/
def dayOk (l : List Char) : Bool :=
  isDigits l && decide (1 ≤ natVal l) &&
    ((l.length == 1 && decide (natVal l ≤ 9)) ||
     (l.length == 2 && decide (natVal l ≤ 31)))

/-- Split a character list at every `'-'` (the two literal separators of the
format); mirrors how the compiled format regex decomposes the input, since
no field of `"%Y-%m-%d"` can match a `'-'`. -/
def splitOnDash : List Char → List (List Char)
  | [] => [[]]
  | c :: cs =>
    if c = '-' then [] :: splitOnDash cs
    else
      match splitOnDash cs with
      | [] => [[c]]
      | p :: ps => (c :: p) :: ps

/-- `datetime.strptime(s, "%Y-%m-%d")` on the characters of `s`: the three
fields must fill the whole string and the resulting triple must be a real
calendar date, otherwise `ValueError` (modelled as `none`). -/
def parseDateChars (cs : List Char) : Option Date :=
  match splitOnDash cs with
  | [ys, ms, ds] =>
    if yearOk ys && monthOk ms && dayOk ds then
      if validDate ⟨natVal ys, natVal ms, natVal ds⟩ then
        some ⟨natVal ys, natVal ms, natVal ds⟩
      else none
    else none
  | _ => none

def parseDate (s : String) : Option Date := parseDateChars s.data

/-- Two-digit zero-padded decimal rendering (the `%m` / `%d` output). -/
def pad2 (n : Nat) : List Char :=
  [Nat.digitChar (n / 10 % 10), Nat.digitChar (n % 10)]

/-- Four-digit zero-padded decimal rendering (the `%Y` output). -/
def pad4 (n : Nat) : List Char :=
  [Nat.digitChar (n / 1000 % 10), Nat.digitChar (n / 100 % 10),
   Nat.digitChar (n / 10 % 10), Nat.digitChar (n % 10)]

/-- `due_date.strftime("%Y-%m-%d")`. -/
def formatDate (dt : Date) : String :=
  ⟨pad4 dt.year ++ '-' :: (pad2 dt.month ++ '-' :: pad2 dt.day)⟩

/-- `str.lower` on one character, ASCII range. -/
def pyLowerChar (c : Char) : Char :=
  if 65 ≤ c.toNat ∧ c.toNat ≤ 90 then Char.ofNat (c.toNat + 32) else c

/-- `str.upper` on one character, ASCII range. -/
def pyUpperChar (c : Char) : Char :=
  if 97 ≤ c.toNat ∧ c.toNat ≤ 122 then Char.ofNat (c.toNat - 32) else c

/-- `str.lower`. -/
def pyLower (s : String) : String := ⟨s.data.map pyLowerChar⟩

/-- `str.capitalize`: first character uppercased, the rest lowercased. -/
def pyCapitalize (s : String) : String :=
  match s.data with
  | [] => ""
  | c :: cs => ⟨pyUpperChar c :: cs.map pyLowerChar⟩

/-- The Python exception classes the core can raise.  `invalidDate`,
`invalidPriority` and `taskNotFound` are the three classes defined in
`src/main.py`; `valueError` is the bare `ValueError` that
`datetime.strptime` raises out of `ToDoList.list_tasks`, where the code
performs no conversion.  They are distinct classes in Python (none is a
subclass of another), hence distinct constructors here. -/
inductive PyErr where
  | invalidDate
  | invalidPriority
  | taskNotFound
  | valueError
deriving DecidableEq, Repr

/-- The allowed priorities, as listed in `Task.__init__`. -/
def validPriorities : List String := ["High", "Medium", "Low"]

/-- One task.  `due_date` holds the parsed `datetime` (date part),
`priority` the capitalized priority string. -/
structure Task where
  description : String
  due_date : Date
  priority : String
  completed : Bool
  tags : List String
deriving DecidableEq, Repr

/-- `Task.__init__`: parses `due_date` with the fixed format — a parse
failure (`ValueError`) is converted by the `except ValueError` clause into
`InvalidDateError` — then capitalizes `priority` and checks membership in
`validPriorities`, raising `InvalidPriorityError` otherwise.
`InvalidPriorityError` derives from `Exception`, not `ValueError`, so it
escapes the `except ValueError` clause unchanged. -/
def Task.init (description due_date priority : String) (tags : List String)
    (completed : Bool) : Except PyErr Task :=
  match parseDate due_date with
  | none => Except.error PyErr.invalidDate
  | some d =>
    if pyCapitalize priority ∈ validPriorities then
      Except.ok ⟨description, d, pyCapitalize priority, completed, tags⟩
    else Except.error PyErr.invalidPriority

/-- The plain record (`dict`) that one task serializes to. -/
structure TaskDict where
  description : String
  due_date : String
  priority : String
  completed : Bool
  tags : List String
deriving DecidableEq, Repr

/-- `Task.to_dict`: the due date is formatted back to `"%Y-%m-%d"` text. -/
def Task.to_dict (t : Task) : TaskDict :=
  ⟨t.description, formatDate t.due_date, t.priority, t.completed, t.tags⟩

/-- `Task.from_dict`: rebuilds the task through the `Task` constructor. -/
def Task.from_dict (r : TaskDict) : Except PyErr Task :=
  Task.init r.description r.due_date r.priority r.tags r.completed

/-- The invariant every `Task` built by `Task.init` (hence every task ever
stored) satisfies: capitalized priority in the allowed set and a due date
that `datetime` accepted. -/
def Task.Valid (t : Task) : Prop :=
  t.priority ∈ validPriorities ∧ validDate t.due_date = true

instance exceptDecEq {ε α : Type} [DecidableEq ε] [DecidableEq α] :
    DecidableEq (Except ε α)
  | Except.error e, Except.error f => decidable_of_iff (e = f) (by simp)
  | Except.error _, Except.ok _ => Decidable.isFalse (by simp)
  | Except.ok _, Except.error _ => Decidable.isFalse (by simp)
  | Except.ok a, Except.ok b => decidable_of_iff (a = b) (by simp)

instance taskValidDecidable (t : Task) : Decidable t.Valid :=
  inferInstanceAs
    (Decidable (t.priority ∈ validPriorities ∧ validDate t.due_date = true))

/-- The `ToDoList` state: its ordered `tasks` list. -/
abbrev ToDoList := List Task

/-- `ToDoList.add_task`: `list.append`. -/
def ToDoList.add_task (tasks : ToDoList) (t : Task) : ToDoList := tasks ++ [t]

/-- `ToDoList.remove_task`: drop the first task whose description equals the
argument; `TaskNotFoundError` when none matches (the list is untouched in
that case — the loop raises without mutating). -/
def ToDoList.remove_task : ToDoList → String → Except PyErr ToDoList
  | [], _ => Except.error PyErr.taskNotFound
  | t :: ts, d =>
    if t.description = d then Except.ok ts
    else
      match ToDoList.remove_task ts d with
      | Except.ok ts' => Except.ok (t :: ts')
      | Except.error e => Except.error e

/-- `ToDoList.mark_completed`: set `completed = True` on the first task
whose description equals the argument; `TaskNotFoundError` when none
matches. -/
def ToDoList.mark_completed : ToDoList → String → Except PyErr ToDoList
  | [], _ => Except.error PyErr.taskNotFound
  | t :: ts, d =>
    if t.description = d then
      Except.ok (⟨t.description, t.due_date, t.priority, true, t.tags⟩ :: ts)
    else
      match ToDoList.mark_completed ts d with
      | Except.ok ts' => Except.ok (t :: ts')
      | Except.error e => Except.error e

/-- Is `pat` a leading run of `l`?  (Helper for Python's `in` on strings.) -/
def startsWithChars : List Char → List Char → Bool
  | [], _ => true
  | _ :: _, [] => false
  | p :: ps, c :: cs => p == c && startsWithChars ps cs

/-- Python's substring test `pat in l` on character lists. -/
def containsChars (pat : List Char) : List Char → Bool
  | [] => pat.isEmpty
  | c :: cs => startsWithChars pat (c :: cs) || containsChars pat cs

/-- `ToDoList.list_tasks(filter_by, value)`: the four recognized filter
kinds each keep the matching tasks in store order; any other `filter_by`
(including `None`) falls through and returns the whole list.  In the
`due_date` branch `datetime.strptime` can raise a bare `ValueError`, which
propagates. -/
def ToDoList.list_tasks (tasks : ToDoList) (filter_by : Option String)
    (value : String) : Except PyErr ToDoList :=
  if filter_by = some "priority" then
    Except.ok (tasks.filter (fun t => pyLower t.priority == pyLower value))
  else if filter_by = some "due_date" then
    match parseDate value with
    | none => Except.error PyErr.valueError
    | some d0 => Except.ok (tasks.filter (fun t => t.due_date == d0))
  else if filter_by = some "tag" then
    Except.ok (tasks.filter (fun t => (t.tags.map pyLower).contains (pyLower value)))
  else if filter_by = some "keyword" then
    Except.ok (tasks.filter (fun t => containsChars (pyLower value).data (pyLower t.description).data))
  else Except.ok tasks

/-- `ToDoList.save_to_file`: the file receives exactly the JSON dump of the
per-task records, in store order; that record list is the modelled file
content. -/
def ToDoList.save_to_file (tasks : ToDoList) : List TaskDict :=
  tasks.map Task.to_dict

/-- The list comprehension `[Task.from_dict(task) for task in data]` with
exception propagation. -/
def mapFromDict : List TaskDict → Except PyErr (List Task)
  | [] => Except.ok []
  | r :: rs =>
    match Task.from_dict r with
    | Except.error e => Except.error e
    | Except.ok t =>
      match mapFromDict rs with
      | Except.error e => Except.error e
      | Except.ok ts => Except.ok (t :: ts)

/-- `ToDoList.load_from_file`: `none` models `FileNotFoundError` (the store
becomes empty); otherwise every record is rebuilt through `Task.from_dict`.
-/
def ToDoList.load_from_file (contents : Option (List TaskDict)) :
    Except PyErr ToDoList :=
  match contents with
  | none => Except.ok []
  | some data => mapFromDict data

/-- Task A of the worked filter example (High priority). -/
def taskA : Task := ⟨"A", ⟨2025, 1, 1⟩, "High", false, []⟩

/-- Task B of the worked filter example (Low priority). -/
def taskB : Task := ⟨"B", ⟨2025, 1, 2⟩, "Low", false, []⟩

/-- Task C of the worked filter example (High priority). -/
def taskC : Task := ⟨"C", ⟨2025, 1, 3⟩, "High", false, []⟩

/-! ### Character and digit lemmas -/

theorem charToNat_ofNat (n : Nat) (h : n.isValidChar) :
    (Char.ofNat n).toNat = n := by
  simp only [Char.ofNat, h, dite_true, Char.ofNatAux, Char.toNat]
  rfl

theorem charExt (c c' : Char) (h : c.toNat = c'.toNat) : c = c' := by
  apply Char.eq_of_val_eq
  exact UInt32.ext h

theorem pyLowerChar_toNat (c : Char) :
    (pyLowerChar c).toNat =
      if 65 ≤ c.toNat ∧ c.toNat ≤ 90 then c.toNat + 32 else c.toNat := by
  unfold pyLowerChar
  by_cases h : 65 ≤ c.toNat ∧ c.toNat ≤ 90
  · rw [if_pos h, if_pos h, charToNat_ofNat _ (Or.inl (by omega))]
  · rw [if_neg h, if_neg h]

theorem pyUpperChar_toNat (c : Char) :
    (pyUpperChar c).toNat =
      if 97 ≤ c.toNat ∧ c.toNat ≤ 122 then c.toNat - 32 else c.toNat := by
  unfold pyUpperChar
  by_cases h : 97 ≤ c.toNat ∧ c.toNat ≤ 122
  · rw [if_pos h, if_pos h, charToNat_ofNat _ (Or.inl (by omega))]
  · rw [if_neg h, if_neg h]

theorem pyLowerChar_pyUpperChar (c : Char) :
    pyLowerChar (pyUpperChar c) = pyLowerChar c := by
  apply charExt
  rw [pyLowerChar_toNat, pyLowerChar_toNat, pyUpperChar_toNat]
  split_ifs <;> omega

theorem pyLowerChar_pyLowerChar (c : Char) :
    pyLowerChar (pyLowerChar c) = pyLowerChar c := by
  apply charExt
  rw [pyLowerChar_toNat, pyLowerChar_toNat]
  split_ifs <;> omega

theorem pyUpperChar_congr (c c' : Char) (h : pyLowerChar c = pyLowerChar c') :
    pyUpperChar c = pyUpperChar c' := by
  have hN : (pyLowerChar c).toNat = (pyLowerChar c').toNat := by rw [h]
  rw [pyLowerChar_toNat, pyLowerChar_toNat] at hN
  apply charExt
  rw [pyUpperChar_toNat, pyUpperChar_toNat]
  split_ifs at hN ⊢ <;> omega

theorem digitChar_isDigit (k : Nat) (h : k < 10) :
    (Nat.digitChar k).isDigit = true := by
  interval_cases k <;> decide

theorem charVal_digitChar (k : Nat) (h : k < 10) :
    charVal (Nat.digitChar k) = k := by
  interval_cases k <;> decide

theorem digitChar_ne_dash (k : Nat) (h : k < 10) : Nat.digitChar k ≠ '-' := by
  interval_cases k <;> decide

theorem pad2_no_dash (n : Nat) : ∀ c ∈ pad2 n, c ≠ '-' := by
  intro c hc
  simp only [pad2, List.mem_cons, List.not_mem_nil, or_false] at hc
  rcases hc with h | h <;> subst h <;>
    exact digitChar_ne_dash _ (Nat.mod_lt _ (by omega))

theorem pad4_no_dash (n : Nat) : ∀ c ∈ pad4 n, c ≠ '-' := by
  intro c hc
  simp only [pad4, List.mem_cons, List.not_mem_nil, or_false] at hc
  rcases hc with h | h | h | h <;> subst h <;>
    exact digitChar_ne_dash _ (Nat.mod_lt _ (by omega))

theorem pad2_digits (n : Nat) : isDigits (pad2 n) = true := by
  simp only [isDigits, pad2, List.all_cons, List.all_nil, Bool.and_true]
  rw [digitChar_isDigit _ (Nat.mod_lt _ (by omega)),
    digitChar_isDigit _ (Nat.mod_lt _ (by omega))]
  rfl

theorem pad4_digits (n : Nat) : isDigits (pad4 n) = true := by
  simp only [isDigits, pad4, List.all_cons, List.all_nil, Bool.and_true]
  rw [digitChar_isDigit _ (Nat.mod_lt _ (by omega)),
    digitChar_isDigit _ (Nat.mod_lt _ (by omega)),
    digitChar_isDigit _ (Nat.mod_lt _ (by omega)),
    digitChar_isDigit _ (Nat.mod_lt _ (by omega))]
  rfl

theorem pad2_length (n : Nat) : (pad2 n).length = 2 := rfl

theorem natVal_pad2 (n : Nat) (h : n ≤ 99) : natVal (pad2 n) = n := by
  simp only [natVal, pad2, List.foldl]
  rw [charVal_digitChar _ (Nat.mod_lt _ (by omega)),
    charVal_digitChar _ (Nat.mod_lt _ (by omega))]
  omega

theorem natVal_pad4 (n : Nat) (h : n ≤ 9999) : natVal (pad4 n) = n := by
  simp only [natVal, pad4, List.foldl]
  rw [charVal_digitChar _ (Nat.mod_lt _ (by omega)),
    charVal_digitChar _ (Nat.mod_lt _ (by omega)),
    charVal_digitChar _ (Nat.mod_lt _ (by omega)),
    charVal_digitChar _ (Nat.mod_lt _ (by omega))]
  omega

/-! ### splitOnDash lemmas -/

theorem splitOnDash_no_dash (l : List Char) (h : ∀ c ∈ l, c ≠ '-') :
    splitOnDash l = [l] := by
  induction l with
  | nil => rfl
  | cons c cs ih =>
    unfold splitOnDash
    rw [if_neg (h c (List.mem_cons_self c cs)),
      ih (fun x hx => h x (List.mem_cons_of_mem c hx))]

theorem splitOnDash_append (a r : List Char) (ha : ∀ c ∈ a, c ≠ '-') :
    splitOnDash (a ++ '-' :: r) = a :: splitOnDash r := by
  induction a with
  | nil =>
    simp only [List.nil_append]
    conv_lhs => unfold splitOnDash
    rw [if_pos rfl]
  | cons c cs ih =>
    rw [List.cons_append]
    conv_lhs => unfold splitOnDash
    rw [if_neg (ha c (List.mem_cons_self c cs)),
      ih (fun x hx => ha x (List.mem_cons_of_mem c hx))]

/-! ### Case-normalization lemmas for priorities -/

theorem pyLower_pyCapitalize (s : String) :
    pyLower (pyCapitalize s) = pyLower s := by
  obtain ⟨l⟩ := s
  cases l with
  | nil => rfl
  | cons c cs =>
    show pyLower ⟨pyUpperChar c :: cs.map pyLowerChar⟩ = ⟨(c :: cs).map pyLowerChar⟩
    unfold pyLower
    show String.mk (pyLowerChar (pyUpperChar c) :: (cs.map pyLowerChar).map pyLowerChar) = _
    rw [pyLowerChar_pyUpperChar, List.map_map]
    show String.mk (pyLowerChar c :: cs.map (fun x => pyLowerChar (pyLowerChar x))) = _
    rw [List.map_congr_left (fun x _ => pyLowerChar_pyLowerChar x)]
    rfl

/-- The lower-cased spellings of the allowed priorities. -/
def lowerPriorities : List String := ["high", "medium", "low"]

theorem pyLower_mem_of_pyCapitalize (s : String)
    (h : pyCapitalize s ∈ validPriorities) : pyLower s ∈ lowerPriorities := by
  rw [← pyLower_pyCapitalize s]
  simp only [validPriorities, List.mem_cons, List.not_mem_nil, or_false] at h
  rcases h with h | h | h <;> rw [h] <;> decide

theorem pyCapitalize_eq_of_pyLower (s w : String)
    (hw : pyLower s = pyLower w) (hne : w.data ≠ []) :
    pyCapitalize s = pyCapitalize w := by
  obtain ⟨l⟩ := s
  obtain ⟨m⟩ := w
  have hdata : l.map pyLowerChar = m.map pyLowerChar := congrArg String.data hw
  cases m with
  | nil => exact absurd rfl hne
  | cons b bs =>
    cases l with
    | nil => exact absurd hdata.symm (by simp)
    | cons c cs =>
      simp only [List.map_cons, List.cons.injEq] at hdata
      show String.mk (pyUpperChar c :: cs.map pyLowerChar) =
        String.mk (pyUpperChar b :: bs.map pyLowerChar)
      rw [pyUpperChar_congr c b hdata.1, hdata.2]

theorem pyCapitalize_mem_of_pyLower (s : String)
    (h : pyLower s ∈ lowerPriorities) : pyCapitalize s ∈ validPriorities := by
  simp only [lowerPriorities, List.mem_cons, List.not_mem_nil, or_false] at h
  rcases h with h | h | h
  · have := pyCapitalize_eq_of_pyLower s "High" (by rw [h]; decide) (by decide)
    rw [this]; decide
  · have := pyCapitalize_eq_of_pyLower s "Medium" (by rw [h]; decide) (by decide)
    rw [this]; decide
  · have := pyCapitalize_eq_of_pyLower s "Low" (by rw [h]; decide) (by decide)
    rw [this]; decide

/-! ### Date parse/format lemmas -/

theorem daysInMonth_le_31 (y m : Nat) : daysInMonth y m ≤ 31 := by
  unfold daysInMonth
  split_ifs <;> omega

theorem parseDate_valid (s : String) (d : Date) (h : parseDate s = some d) :
    validDate d = true := by
  unfold parseDate parseDateChars at h
  split at h
  · split_ifs at h with h1 h2
    · cases h
      exact h2
  · cases h

theorem parseDate_formatDate (dt : Date) (h : validDate dt = true) :
    parseDate (formatDate dt) = some dt := by
  obtain ⟨y, m, d⟩ := dt
  simp only [validDate, Bool.and_eq_true, decide_eq_true_eq] at h
  obtain ⟨⟨⟨⟨⟨hy1, hy2⟩, hm1⟩, hm2⟩, hd1⟩, hd2⟩ := h
  have hd31 : d ≤ 31 := le_trans hd2 (daysInMonth_le_31 y m)
  have hstep : parseDate (formatDate ⟨y, m, d⟩) =
      parseDateChars (pad4 y ++ '-' :: (pad2 m ++ '-' :: pad2 d)) := rfl
  rw [hstep]
  unfold parseDateChars
  rw [splitOnDash_append _ _ (pad4_no_dash y),
    splitOnDash_append _ _ (pad2_no_dash m),
    splitOnDash_no_dash _ (pad2_no_dash d)]
  have hyok : yearOk (pad4 y) = true := by
    simp only [yearOk, pad4_digits y, Bool.and_true]
    rfl
  have hmok : monthOk (pad2 m) = true := by
    simp [monthOk, pad2_digits m, natVal_pad2 m (by omega), pad2_length, hm1, hm2]
  have hdok : dayOk (pad2 d) = true := by
    simp [dayOk, pad2_digits d, natVal_pad2 d (by omega), pad2_length, hd1, hd31]
  simp only [hyok, hmok, hdok, Bool.and_self, if_true]
  rw [natVal_pad4 y (by omega), natVal_pad2 m (by omega), natVal_pad2 d (by omega)]
  have hvd : validDate ⟨y, m, d⟩ = true := by
    simp only [validDate, Bool.and_eq_true, decide_eq_true_eq]
    exact ⟨⟨⟨⟨⟨hy1, hy2⟩, hm1⟩, hm2⟩, hd1⟩, hd2⟩
  rw [hvd]
  rfl

/-! ### Task-level lemmas -/

theorem task_init_ok (desc ddate pr : String) (tags : List String)
    (completed : Bool) (d : Date) (hd : parseDate ddate = some d)
    (hp : pyCapitalize pr ∈ validPriorities) :
    Task.init desc ddate pr tags completed =
      Except.ok ⟨desc, d, pyCapitalize pr, completed, tags⟩ := by
  unfold Task.init
  rw [hd]
  simp only [hp, if_true]

theorem from_dict_to_dict (t : Task) (h : t.Valid) :
    Task.from_dict (Task.to_dict t) = Except.ok t := by
  obtain ⟨desc, d, p, c, tags⟩ := t
  obtain ⟨hp, hd⟩ := h
  have hcap : pyCapitalize p = p := by
    simp only [validPriorities, List.mem_cons, List.not_mem_nil, or_false] at hp
    rcases hp with h | h | h <;> rw [h] <;> decide
  have hp' : pyCapitalize p ∈ validPriorities := by rw [hcap]; exact hp
  show Task.init desc (formatDate d) p tags c = Except.ok ⟨desc, d, p, c, tags⟩
  rw [task_init_ok desc (formatDate d) p tags c d (parseDate_formatDate d hd) hp',
    hcap]

theorem task_init_bad_priority (desc ddate pr : String) (tags : List String)
    (completed : Bool) (d : Date) (hd : parseDate ddate = some d)
    (hp : pyCapitalize pr ∉ validPriorities) :
    Task.init desc ddate pr tags completed =
      Except.error PyErr.invalidPriority := by
  unfold Task.init
  rw [hd]
  exact if_neg hp

theorem task_init_bad_date (desc ddate pr : String) (tags : List String)
    (completed : Bool) (hd : parseDate ddate = none) :
    Task.init desc ddate pr tags completed = Except.error PyErr.invalidDate := by
  unfold Task.init
  rw [hd]

/-! ### Claim theorems -/

/-- C1: for every description, due-date text that parses under the fixed
YYYY-MM-DD format, priority text that is case-insensitively one of
High/Medium/Low, tag list (and completion flag), constructing a `Task`
succeeds, and `to_dict` followed by `from_dict` yields a task equal to it;
in particular its description, due date, completion flag and tags are the
ones supplied. -/
theorem claim_c1_task_record_roundtrip (desc ddate pr : String)
    (tags : List String) (completed : Bool) (d : Date)
    (hd : parseDate ddate = some d) (hp : pyLower pr ∈ lowerPriorities) :
    ∃ t : Task, Task.init desc ddate pr tags completed = Except.ok t ∧
      Task.from_dict (Task.to_dict t) = Except.ok t ∧
      t.description = desc ∧ t.due_date = d ∧
      t.completed = completed ∧ t.tags = tags := by
  have hp' := pyCapitalize_mem_of_pyLower pr hp
  exact ⟨⟨desc, d, pyCapitalize pr, completed, tags⟩,
    task_init_ok desc ddate pr tags completed d hd hp',
    from_dict_to_dict _ ⟨hp', parseDate_valid ddate d hd⟩, rfl, rfl, rfl, rfl⟩

theorem claim_c1_witness :
    parseDate "2025-01-05" = some ⟨2025, 1, 5⟩ ∧
    pyLower "hIgH" ∈ lowerPriorities ∧
    ∃ t : Task,
      Task.init "Pay rent" "2025-01-05" "hIgH" ["home"] false = Except.ok t ∧
      Task.from_dict (Task.to_dict t) = Except.ok t ∧
      t.description = "Pay rent" ∧ t.due_date = ⟨2025, 1, 5⟩ ∧
      t.completed = false ∧ t.tags = ["home"] :=
  ⟨by decide, by decide,
    claim_c1_task_record_roundtrip "Pay rent" "2025-01-05" "hIgH" ["home"]
      false ⟨2025, 1, 5⟩ (by decide) (by decide)⟩

/-- C2: for every store state whose tasks satisfy the construction
invariant, `save_to_file` followed by a fresh store's `load_from_file`
reproduces an equal ordered task sequence. -/
theorem claim_c2_store_roundtrip (ts : ToDoList) (h : ∀ t ∈ ts, t.Valid) :
    ToDoList.load_from_file (some (ToDoList.save_to_file ts)) =
      Except.ok ts := by
  show mapFromDict (ts.map Task.to_dict) = Except.ok ts
  induction ts with
  | nil => rfl
  | cons t ts ih =>
    simp only [List.map_cons, mapFromDict]
    rw [from_dict_to_dict t (h t (List.mem_cons_self t ts)),
      ih (fun x hx => h x (List.mem_cons_of_mem t hx))]

theorem claim_c2_witness :
    (∀ t ∈ [taskA, taskB], t.Valid) ∧
    ToDoList.load_from_file (some (ToDoList.save_to_file [taskA, taskB])) =
      Except.ok [taskA, taskB] :=
  ⟨by decide, claim_c2_store_roundtrip [taskA, taskB] (by decide)⟩

/-- C3 counterexample: with the non-priority string `"urgent"` and the
unparseable date `"not-a-date"`, construction fails with
`InvalidDateError`, not `InvalidPriorityError` — so an invalid priority
does not yield `InvalidPriorityError` under arbitrary other arguments. -/
theorem claim_c3_counterexample :
    pyLower "urgent" ∉ lowerPriorities ∧
    Task.init "x" "not-a-date" "urgent" [] false =
      Except.error PyErr.invalidDate ∧
    Task.init "x" "not-a-date" "urgent" [] false ≠
      Except.error PyErr.invalidPriority := by
  decide

/-- C3 amended: for every priority string that is not case-insensitively
one of High, Medium, Low, construction fails with `InvalidPriorityError`
provided the due-date text parses under the fixed format; when the
due-date text does not parse, it fails with `InvalidDateError` instead
(date parsing happens first). -/
theorem claim_c3_invalid_priority (desc ddate pr : String)
    (tags : List String) (completed : Bool)
    (hp : pyLower pr ∉ lowerPriorities) :
    (∀ d, parseDate ddate = some d →
      Task.init desc ddate pr tags completed =
        Except.error PyErr.invalidPriority) ∧
    (parseDate ddate = none →
      Task.init desc ddate pr tags completed =
        Except.error PyErr.invalidDate) := by
  have hp' : pyCapitalize pr ∉ validPriorities :=
    fun hmem => hp (pyLower_mem_of_pyCapitalize pr hmem)
  exact ⟨fun d hd => task_init_bad_priority desc ddate pr tags completed d hd hp',
    fun hd => task_init_bad_date desc ddate pr tags completed hd⟩

theorem claim_c3_witness :
    pyLower "urgent" ∉ lowerPriorities ∧
    parseDate "2024-01-01" = some ⟨2024, 1, 1⟩ ∧
    Task.init "x" "2024-01-01" "urgent" [] false =
      Except.error PyErr.invalidPriority :=
  ⟨by decide, by decide,
    (claim_c3_invalid_priority "x" "2024-01-01" "urgent" [] false
      (by decide)).1 ⟨2024, 1, 1⟩ (by decide)⟩

/-- C4: for every date string that does not parse under the fixed
YYYY-MM-DD format, construction fails with `InvalidDateError`, whatever
the other arguments are. -/
theorem claim_c4_invalid_date (desc ddate pr : String) (tags : List String)
    (completed : Bool) (h : parseDate ddate = none) :
    Task.init desc ddate pr tags completed =
      Except.error PyErr.invalidDate :=
  task_init_bad_date desc ddate pr tags completed h

theorem claim_c4_witness :
    parseDate "2024-13-01" = none ∧ parseDate "not-a-date" = none ∧
    Task.init "x" "2024-13-01" "High" [] false =
      Except.error PyErr.invalidDate ∧
    Task.init "x" "not-a-date" "High" [] false =
      Except.error PyErr.invalidDate :=
  ⟨by decide, by decide,
    claim_c4_invalid_date "x" "2024-13-01" "High" [] false (by decide),
    claim_c4_invalid_date "x" "not-a-date" "High" [] false (by decide)⟩

/-- C5 counterexample: with a valid due date and the invalid priority
`"urgent"`, construction fails with `InvalidPriorityError` and not with
`InvalidDateError`: the priority failure is not routed through the
date-error path, because `InvalidPriorityError` does not derive from
`ValueError` and so escapes the `except ValueError` clause. -/
theorem claim_c5_counterexample :
    parseDate "2024-01-01" = some ⟨2024, 1, 1⟩ ∧
    Task.init "x" "2024-01-01" "urgent" [] false =
      Except.error PyErr.invalidPriority ∧
    Task.init "x" "2024-01-01" "urgent" [] false ≠
      Except.error PyErr.invalidDate := by
  decide

/-- C5 amended: construction fails with `InvalidDateError` exactly when
date parsing fails; a priority-validation failure with a valid due date
surfaces as `InvalidPriorityError`, not as the date error — there is no
conflation of the two failures. -/
theorem claim_c5_error_paths (desc ddate pr : String) (tags : List String)
    (completed : Bool) :
    (parseDate ddate = none →
      Task.init desc ddate pr tags completed =
        Except.error PyErr.invalidDate) ∧
    (∀ d, parseDate ddate = some d → pyCapitalize pr ∉ validPriorities →
      Task.init desc ddate pr tags completed =
        Except.error PyErr.invalidPriority) :=
  ⟨fun hd => task_init_bad_date desc ddate pr tags completed hd,
    fun d hd hp => task_init_bad_priority desc ddate pr tags completed d hd hp⟩

theorem claim_c5_witness :
    parseDate "bad" = none ∧
    Task.init "x" "bad" "Low" [] false = Except.error PyErr.invalidDate ∧
    parseDate "2024-01-01" = some ⟨2024, 1, 1⟩ ∧
    pyCapitalize "wat" ∉ validPriorities ∧
    Task.init "y" "2024-01-01" "wat" [] false =
      Except.error PyErr.invalidPriority :=
  ⟨by decide, (claim_c5_error_paths "x" "bad" "Low" [] false).1 (by decide),
   by decide, by decide,
   (claim_c5_error_paths "y" "2024-01-01" "wat" [] false).2 ⟨2024, 1, 1⟩
     (by decide) (by decide)⟩

/-- C6: for every store in which no task's description equals `d` (in
particular the empty store), `remove_task` and `mark_completed` both fail
with `TaskNotFoundError`; the failing call produces no new store state (in
the source the loop raises before any mutation), so the task sequence is
unchanged. -/
theorem claim_c6_not_found (ts : ToDoList) (d : String)
    (h : ∀ t ∈ ts, t.description ≠ d) :
    ToDoList.remove_task ts d = Except.error PyErr.taskNotFound ∧
    ToDoList.mark_completed ts d = Except.error PyErr.taskNotFound := by
  induction ts with
  | nil => exact ⟨rfl, rfl⟩
  | cons t ts ih =>
    have hd : t.description ≠ d := h t (List.mem_cons_self t ts)
    have ih' := ih (fun x hx => h x (List.mem_cons_of_mem t hx))
    constructor
    · simp only [ToDoList.remove_task, if_neg hd, ih'.1]
    · simp only [ToDoList.mark_completed, if_neg hd, ih'.2]

theorem claim_c6_witness :
    (∀ t ∈ ([] : ToDoList), t.description ≠ "X") ∧
    ToDoList.remove_task [] "X" = Except.error PyErr.taskNotFound ∧
    ToDoList.mark_completed [] "X" = Except.error PyErr.taskNotFound :=
  ⟨by simp, (claim_c6_not_found [] "X" (by simp)).1,
    (claim_c6_not_found [] "X" (by simp)).2⟩

/-- C7: the priority filter returns exactly the tasks whose priority equals
the value case-insensitively, in store order (the result is the in-order
sublist of matching tasks); on the store [A(High), B(Low), C(High)] the
value "high" yields exactly [A, C]. -/
theorem claim_c7_priority_filter :
    (∀ (ts : ToDoList) (v : String),
      ∃ res, ToDoList.list_tasks ts (some "priority") v = Except.ok res ∧
        res.Sublist ts ∧
        res = ts.filter (fun t => pyLower t.priority == pyLower v) ∧
        ∀ t, t ∈ res ↔ t ∈ ts ∧ pyLower t.priority = pyLower v) ∧
    ToDoList.list_tasks [taskA, taskB, taskC] (some "priority") "high" =
      Except.ok [taskA, taskC] := by
  constructor
  · intro ts v
    refine ⟨ts.filter (fun t => pyLower t.priority == pyLower v), rfl,
      List.filter_sublist _, rfl, ?_⟩
    intro t
    simp [List.mem_filter]
  · decide

theorem claim_c7_witness :
    ToDoList.list_tasks [taskA, taskB, taskC] (some "priority") "high" =
      Except.ok [taskA, taskC] :=
  claim_c7_priority_filter.2

/-- C8 counterexample: an unparseable `due_date` filter value makes
`list_tasks` fail with the bare `ValueError` that `strptime` raises — a
distinct exception class from `InvalidDateError` (and one the menu loop
does not catch), so the failure is not an `InvalidDateError`-class
condition. -/
theorem claim_c8_counterexample :
    ToDoList.list_tasks [] (some "due_date") "not-a-date" =
      Except.error PyErr.valueError ∧
    ToDoList.list_tasks [] (some "due_date") "not-a-date" ≠
      Except.error PyErr.invalidDate := by
  decide

/-- C8 amended: with an unparseable value the `due_date` filter fails with
the bare `ValueError` from `datetime.strptime` (not `InvalidDateError`),
and the error propagates to the caller; with a parseable value it returns
exactly the tasks whose calendar date equals the parsed date, in store
order. -/
theorem claim_c8_due_date_filter (ts : ToDoList) (v : String) :
    (parseDate v = none →
      ToDoList.list_tasks ts (some "due_date") v =
        Except.error PyErr.valueError) ∧
    (∀ d0, parseDate v = some d0 →
      ∃ res, ToDoList.list_tasks ts (some "due_date") v = Except.ok res ∧
        res.Sublist ts ∧
        ∀ t, t ∈ res ↔ t ∈ ts ∧ t.due_date = d0) := by
  have hne : (some "due_date" : Option String) ≠ some "priority" := by decide
  constructor
  · intro hv
    unfold ToDoList.list_tasks
    rw [if_neg hne, if_pos rfl, hv]
  · intro d0 hv
    refine ⟨ts.filter (fun t => t.due_date == d0), ?_,
      List.filter_sublist _, ?_⟩
    · unfold ToDoList.list_tasks
      rw [if_neg hne, if_pos rfl, hv]
    · intro t
      simp [List.mem_filter]

theorem claim_c8_witness :
    parseDate "nope" = none ∧
    ToDoList.list_tasks [taskA] (some "due_date") "nope" =
      Except.error PyErr.valueError :=
  ⟨by decide, (claim_c8_due_date_filter [taskA] "nope").1 (by decide)⟩

/-- C9: any `filter_by` outside the four recognized kinds — including
`none`, the no-filter case — makes `list_tasks` return the whole store in
order, whatever the value argument is. -/
theorem claim_c9_unrecognized_filter (ts : ToDoList) (fb : Option String)
    (v : String) (h1 : fb ≠ some "priority") (h2 : fb ≠ some "due_date")
    (h3 : fb ≠ some "tag") (h4 : fb ≠ some "keyword") :
    ToDoList.list_tasks ts fb v = Except.ok ts := by
  unfold ToDoList.list_tasks
  rw [if_neg h1, if_neg h2, if_neg h3, if_neg h4]

theorem claim_c9_witness :
    ToDoList.list_tasks [taskA, taskB] none "anything" =
      Except.ok [taskA, taskB] ∧
    ToDoList.list_tasks [taskA, taskB] (some "bogus") "anything" =
      Except.ok [taskA, taskB] :=
  ⟨claim_c9_unrecognized_filter [taskA, taskB] none "anything"
      (by decide) (by decide) (by decide) (by decide),
    claim_c9_unrecognized_filter [taskA, taskB] (some "bogus") "anything"
      (by decide) (by decide) (by decide) (by decide)⟩

/-- C10: construction performs no validation of the description: with any
parseable due-date text and accepted priority text, the empty string is
accepted as a description. -/
theorem claim_c10_empty_description (ddate pr : String) (tags : List String)
    (completed : Bool) (d : Date) (hd : parseDate ddate = some d)
    (hp : pyCapitalize pr ∈ validPriorities) :
    ∃ t : Task, Task.init "" ddate pr tags completed = Except.ok t ∧
      t.description = "" :=
  ⟨⟨"", d, pyCapitalize pr, completed, tags⟩,
    task_init_ok "" ddate pr tags completed d hd hp, rfl⟩

theorem claim_c10_witness :
    parseDate "2025-06-01" = some ⟨2025, 6, 1⟩ ∧
    pyCapitalize "medium" ∈ validPriorities ∧
    ∃ t : Task, Task.init "" "2025-06-01" "medium" [] false = Except.ok t ∧
      t.description = "" :=
  ⟨by decide, by decide,
    claim_c10_empty_description "2025-06-01" "medium" [] false ⟨2025, 6, 1⟩
      (by decide) (by decide)⟩

end TodoApp
